import Mathlib

/-!
Verification development for the repo-rover backend orchestration core:
the session store (`backend/session_manager.py`), the persistent paper
cache (`backend/src/utils/paper_cache.py`), and the pipeline endpoints
(`backend/api_server.py`, `backend/src/discovery/paper_finder.py`).

Python strings that the code computes on (arxiv identifiers, queries,
URLs) are modelled as `List Char`; Python dicts as association lists;
wall-clock timestamps as natural numbers (seconds).  External
collaborators (arxiv lookup, Gemini search, git clone, Chroma indexing)
are oracles supplied in an environment record, per their narrow
contracts.
-/

namespace RepoRover

/-- A Python `str` that the modelled code inspects character by character. -/
abbrev Str := List Char

/-! ## Association-list model of Python dicts -/

section Dict

variable {K V : Type} [DecidableEq K]

/-- Dict lookup: value stored under the first matching key. -/
def mapLookup : List (K × V) → K → Option V
  | [], _ => none
  | (k, v) :: rest, key => if k = key then some v else mapLookup rest key

/-- Dict write `d[k] = v`: replaces the value in place, appends if absent. -/
def mapInsert : List (K × V) → K → V → List (K × V)
  | [], key, v => [(key, v)]
  | (k, v') :: rest, key, v =>
    if k = key then (key, v) :: rest else (k, v') :: mapInsert rest key v

/-- Dict deletion `del d[k]`: removes every pair stored under the key. -/
def mapErase : List (K × V) → K → List (K × V)
  | [], _ => []
  | (k, v) :: rest, key =>
    if k = key then mapErase rest key else (k, v) :: mapErase rest key

theorem mapLookup_mapInsert (m : List (K × V)) (k k' : K) (v : V) :
    mapLookup (mapInsert m k v) k' = if k = k' then some v else mapLookup m k' := by
  induction m with
  | nil => by_cases h : k = k' <;> simp [mapInsert, mapLookup, h]
  | cons p rest ih =>
    obtain ⟨k₀, v₀⟩ := p
    by_cases h₀ : k₀ = k
    · by_cases h' : k = k' <;> simp [mapInsert, mapLookup, h₀, h']
    · by_cases h' : k₀ = k'
      · subst h'
        have : ¬ k = k₀ := fun h => h₀ h.symm
        simp [mapInsert, mapLookup, h₀, this]
      · simp [mapInsert, mapLookup, h₀, h', ih]

theorem mapLookup_mapInsert_self (m : List (K × V)) (k : K) (v : V) :
    mapLookup (mapInsert m k v) k = some v := by
  simp [mapLookup_mapInsert]

theorem mapLookup_mapInsert_ne (m : List (K × V)) (k k' : K) (v : V) (h : k ≠ k') :
    mapLookup (mapInsert m k v) k' = mapLookup m k' := by
  simp [mapLookup_mapInsert, h]

theorem mapLookup_mapErase (m : List (K × V)) (k k' : K) :
    mapLookup (mapErase m k) k' = if k = k' then none else mapLookup m k' := by
  induction m with
  | nil => by_cases h : k = k' <;> simp [mapErase, mapLookup, h]
  | cons p rest ih =>
    obtain ⟨k₀, v₀⟩ := p
    by_cases h₀ : k₀ = k
    · subst h₀
      by_cases h' : k₀ = k'
      · subst h'
        simpa [mapErase] using ih
      · simp [mapErase, mapLookup, h', ih]
    · by_cases h' : k₀ = k'
      · subst h'
        have : ¬ k = k₀ := fun h => h₀ h.symm
        simp [mapErase, mapLookup, h₀, this, ih]
      · simp [mapErase, mapLookup, h₀, h', ih]

theorem mapLookup_mapErase_self (m : List (K × V)) (k : K) :
    mapLookup (mapErase m k) k = none := by
  simp [mapLookup_mapErase]

/-- Erasing a key that is present in a duplicate-free dict shortens it by one. -/
theorem length_mapErase_of_mem (m : List (K × V)) (k : K)
    (hnd : (m.map Prod.fst).Nodup) (h : (mapLookup m k).isSome) :
    (mapErase m k).length + 1 = m.length := by
  induction m with
  | nil => simp [mapLookup] at h
  | cons p rest ih =>
    obtain ⟨k₀, v₀⟩ := p
    simp only [List.map_cons, List.nodup_cons] at hnd
    by_cases h₀ : k₀ = k
    · subst h₀
      have hout : mapErase rest k₀ = rest := by
        clear ih h
        induction rest with
        | nil => rfl
        | cons q rs ihq =>
          obtain ⟨k₁, v₁⟩ := q
          simp only [List.map_cons, List.mem_cons] at hnd
          have hne : k₁ ≠ k₀ := by
            intro he
            exact hnd.1 (Or.inl he.symm)
          have hnd' : k₀ ∉ rs.map Prod.fst ∧ (rs.map Prod.fst).Nodup := by
            refine ⟨fun hm => hnd.1 (Or.inr hm), ?_⟩
            exact (List.nodup_cons.mp hnd.2).2
          simp [mapErase, hne, ihq ⟨fun hm => hnd'.1 hm, hnd'.2⟩]
      simp [mapErase, hout]
    · have h' : (mapLookup rest k).isSome := by
        simpa [mapLookup, h₀] using h
      simp [mapErase, h₀, ih hnd.2 h']

end Dict

/-! ## Generic list lemmas used for identifier normalization -/

theorem takeWhile_append_of_all {α : Type} (p : α → Bool) (l₁ l₂ : List α)
    (h : ∀ a ∈ l₁, p a = true) :
    (l₁ ++ l₂).takeWhile p = l₁ ++ l₂.takeWhile p := by
  induction l₁ with
  | nil => simp
  | cons a rest ih =>
    have ha : p a = true := h a (List.mem_cons_self a rest)
    simp only [List.cons_append, List.takeWhile_cons, ha, if_true]
    simp [ih (fun b hb => h b (List.mem_cons_of_mem a hb))]

theorem takeWhile_append_of_stop {α : Type} (p : α → Bool) (l₁ l₂ : List α)
    (a : α) (ha : a ∈ l₁) (hp : p a = false) :
    (l₁ ++ l₂).takeWhile p = l₁.takeWhile p := by
  induction l₁ with
  | nil => cases ha
  | cons b rest ih =>
    by_cases hb : p b = true
    · have ha' : a ∈ rest := by
        rcases List.mem_cons.mp ha with h | h
        · subst h; rw [hb] at hp; cases hp
        · exact h
      simp [List.takeWhile_cons, hb, ih ha']
    · have hb' : p b = false := by
        cases hpb : p b with
        | true => exact absurd hpb hb
        | false => rfl
      simp [List.takeWhile_cons, hb']

/-! ## PaperCache (backend/src/utils/paper_cache.py)

The on-disk JSON dict `self.cache` maps a normalized arxiv id to a
record.  Persistence (`_save_cache`) is I/O and keeps the same in-memory
value, so the model tracks only the dict itself.
-/

/-- Source normalization (every public PaperCache method):
`arxiv_id.split('v')[0] if 'v' in arxiv_id else arxiv_id` — the prefix of
the identifier before its first `'v'`. -/
def normalizeId (s : Str) : Str :=
  if 'v' ∈ s then s.takeWhile (fun c => c != 'v') else s

/-- Modelled from the spec: the §4.2 normalization rule is worded as
"strip a trailing version marker from the identifier", i.e. remove a
final `v` followed by one or more digits, and leave every other
identifier unchanged. -/
def specStripTrailingVersion (s : Str) : Str :=
  let rev := s.reverse
  let ds := rev.takeWhile Char.isDigit
  if ds ≠ [] ∧ (rev.drop ds.length).head? = some 'v' then
    (rev.drop (ds.length + 1)).reverse
  else s

theorem normalizeId_append_version (x : Str) :
    normalizeId (x ++ ['v', '2']) = normalizeId x := by
  by_cases h : 'v' ∈ x
  · have hmem : 'v' ∈ x ++ ['v', '2'] := List.mem_append_left _ h
    have hstop : (fun c => c != 'v') 'v' = false := by simp
    simp only [normalizeId, if_pos h, if_pos hmem]
    exact takeWhile_append_of_stop _ x ['v', '2'] 'v' h hstop
  · have hmem : 'v' ∈ x ++ ['v', '2'] := by simp
    have hall : ∀ a ∈ x, (fun c => c != 'v') a = true := by
      intro a ha
      have : a ≠ 'v' := fun he => h (he ▸ ha)
      simp [this]
    simp only [normalizeId, if_pos hmem, if_neg h]
    rw [takeWhile_append_of_all _ x ['v', '2'] hall]
    simp [List.takeWhile_cons]

/-- One record of the persisted paper cache: the payload fields written by
`init_paper` plus the bookkeeping fields managed by `PaperCache` itself.
Fields that a caller dict may omit are `Option`s. -/
structure CacheRecord where
  arxiv_id : Str
  title : Option String
  authors : List String
  summary : String
  pdf_url : String
  pdf_path : Option String
  repo_url : Option String
  repo_path : Option String
  chroma_collection : Option Str
  chroma_indexed_at : Option Nat
  chroma_file_count : Option Nat
  concept_map_path : Option String
  created_at : Option Nat
  last_accessed : Option Nat
  access_count : Option Nat
  deriving DecidableEq, Repr

/-- In-memory image of the persisted cache dict. -/
structure PaperCache where
  cache : List (Str × CacheRecord)
  deriving DecidableEq, Repr

/-- Source `PaperCache.get`: on a hit, refreshes `last_accessed`, bumps
`access_count` and persists; on a miss, leaves the store untouched. -/
def PaperCache.get (c : PaperCache) (arxiv_id : Str) (now : Nat) :
    Option CacheRecord × PaperCache :=
  let n := normalizeId arxiv_id
  match mapLookup c.cache n with
  | some r =>
    let r' := { r with last_accessed := some now,
                       access_count := some (r.access_count.getD 0 + 1) }
    (some r', ⟨mapInsert c.cache n r'⟩)
  | none => (none, c)

/-- Source `PaperCache.set`: stamps `last_accessed`, bumps the *caller*
`access_count`, stamps `created_at` only when the key is absent, then
overwrites the slot with the record given by the caller. -/
def PaperCache.set (c : PaperCache) (arxiv_id : Str) (data : CacheRecord) (now : Nat) :
    PaperCache :=
  let n := normalizeId arxiv_id
  let data' := { data with
    last_accessed := some now,
    access_count := some (data.access_count.getD 0 + 1),
    created_at := if mapLookup c.cache n = none then some now else data.created_at }
  ⟨mapInsert c.cache n data'⟩

/-- Source `PaperCache.update`, at the one merge used by the orchestrator
(`{"repo_path": p}`): merges into an existing entry and re-stamps
`last_accessed`; a no-op when the entry is absent. -/
def PaperCache.updateRepoPath (c : PaperCache) (arxiv_id : Str) (p : String) (now : Nat) :
    PaperCache :=
  let n := normalizeId arxiv_id
  match mapLookup c.cache n with
  | some r => ⟨mapInsert c.cache n { r with repo_path := some p, last_accessed := some now }⟩
  | none => c

/-- Source `PaperCache.exists`. -/
def PaperCache.existsId (c : PaperCache) (arxiv_id : Str) : Bool :=
  (mapLookup c.cache (normalizeId arxiv_id)).isSome

/-! ## Sessions (backend/session_manager.py)

Wall-clock time is a `Nat` in seconds; `timedelta(hours=h)` is
`h * 3600`.  The store mutex only serializes the short critical
sections, so each operation is modelled as a plain function on the
manager. -/

/-- An uninterpreted concept map payload (round-tripped verbatim by the core). -/
abbrev ConceptMap := Nat

/-- Paper metadata dict as returned by `PaperFinder.get_paper_by_id` and
carried through `init_paper` (only the fields the orchestrator reads). -/
structure PaperInfo where
  title : Option String
  arxiv_id : Str
  authors : List String
  summary : String
  pdf_url : Option String
  pdf_path : Option String
  deriving DecidableEq, Repr

/-- One candidate entry produced by the Gemini search parse loop in
`PaperFinder._search_online_with_gemini`. -/
structure Paper where
  title : String
  authors : List String
  arxiv_id : Str
  pdf_url : Str
  entry_id : Str
  summary : String
  deriving DecidableEq, Repr

/-- The live `QueryPipeline` handle, reduced to the data the orchestrator
binds into it: the index collection and the optional concept map. -/
structure Pipeline where
  collection : Str
  concept_map : Option ConceptMap
  deriving DecidableEq, Repr

/-- The `RoverInstance` closure attached to an initialized session. -/
structure RoverInstance where
  pipeline : Pipeline
  paper_info : PaperInfo
  repo_path : String
  deriving DecidableEq, Repr

/-- Source `Session.__init__`: per-conversation pipeline and selection state. -/
structure Session where
  session_id : String
  created_at : Nat
  last_accessed : Nat
  rover_instance : Option RoverInstance
  paper_info : Option PaperInfo
  repo_path : Option String
  is_initialized : Bool
  initialization_error : Option String
  awaiting_paper_selection : Bool
  paper_options : Option (List Paper)
  original_query : Option Str
  search_mode : String
  deriving DecidableEq, Repr

/-- A fresh session, as built by `Session.__init__`. -/
def Session.fresh (sid : String) (now : Nat) : Session where
  session_id := sid
  created_at := now
  last_accessed := now
  rover_instance := none
  paper_info := none
  repo_path := none
  is_initialized := false
  initialization_error := none
  awaiting_paper_selection := false
  paper_options := none
  original_query := none
  search_mode := "arxiv"

/-- Source `Session.touch`: refresh the last-accessed stamp. -/
def Session.touch (s : Session) (now : Nat) : Session :=
  { s with last_accessed := now }

/-- Source `Session.is_expired`: idle strictly longer than `max_age_hours`. -/
def Session.isExpired (s : Session) (now : Nat) (maxAgeHours : Nat) : Bool :=
  decide (now - s.last_accessed > maxAgeHours * 3600)

/-- One keyword argument accepted by `SessionManager.update_session`;
`unknown` stands for any name that is not a `Session` attribute
(`hasattr` fails, the argument is dropped). -/
inductive SessionField where
  | roverInstanceF (v : Option RoverInstance)
  | paperInfoF (v : Option PaperInfo)
  | repoPathF (v : Option String)
  | isInitializedF (v : Bool)
  | initErrorF (v : Option String)
  | awaitingSelectionF (v : Bool)
  | paperOptionsF (v : Option (List Paper))
  | originalQueryF (v : Option Str)
  | searchModeF (v : String)
  | unknown (key : String)
  deriving DecidableEq

/-- Source `setattr(session, key, value)` for a known attribute; unknown keys
are silently ignored. -/
def Session.applyField (s : Session) : SessionField → Session
  | .roverInstanceF v => { s with rover_instance := v }
  | .paperInfoF v => { s with paper_info := v }
  | .repoPathF v => { s with repo_path := v }
  | .isInitializedF v => { s with is_initialized := v }
  | .initErrorF v => { s with initialization_error := v }
  | .awaitingSelectionF v => { s with awaiting_paper_selection := v }
  | .paperOptionsF v => { s with paper_options := v }
  | .originalQueryF v => { s with original_query := v }
  | .searchModeF v => { s with search_mode := v }
  | .unknown _ => s

/-- Source `SessionManager`: the session dict plus the configured idle timeout. -/
structure SessionManager where
  sessions : List (String × Session)
  max_age_hours : Nat
  deriving DecidableEq, Repr

/-- Source `SessionManager.create_session`; the fresh uuid is an argument. -/
def SessionManager.create (m : SessionManager) (sid : String) (now : Nat) :
    SessionManager :=
  { m with sessions := mapInsert m.sessions sid (Session.fresh sid now) }

/-- Source `SessionManager.get_session`: lazily evicts an expired session,
otherwise touches and returns it. -/
def SessionManager.getSession (m : SessionManager) (sid : String) (now : Nat) :
    Option Session × SessionManager :=
  match mapLookup m.sessions sid with
  | none => (none, m)
  | some s =>
    if s.isExpired now m.max_age_hours then
      (none, { m with sessions := mapErase m.sessions sid })
    else
      let s' := s.touch now
      (some s', { m with sessions := mapInsert m.sessions sid s' })

/-- Source `SessionManager.update_session`: applies the recognized keyword
arguments in order, then touches; a no-op when the session is absent. -/
def SessionManager.updateSession (m : SessionManager) (sid : String)
    (fields : List SessionField) (now : Nat) : SessionManager :=
  match mapLookup m.sessions sid with
  | none => m
  | some s =>
    let s' := (fields.foldl Session.applyField s).touch now
    { m with sessions := mapInsert m.sessions sid s' }

/-- Source `SessionManager.delete_session`. -/
def SessionManager.deleteSession (m : SessionManager) (sid : String) :
    SessionManager :=
  { m with sessions := mapErase m.sessions sid }

/-- Source `SessionManager.cleanup_expired`. -/
def SessionManager.cleanupExpired (m : SessionManager) (now : Nat) :
    SessionManager :=
  { m with sessions :=
      m.sessions.filter (fun e => !(e.2.isExpired now m.max_age_hours)) }

/-- Source `SessionManager.get_session_count`. -/
def SessionManager.count (m : SessionManager) : Nat :=
  m.sessions.length

/-! ## String helpers for the discovery layer
(`api_server._is_arxiv_id`, `PaperFinder.extract_arxiv_id`,
`PaperFinder._search_online_with_gemini`) -/

/-- Python `pat in s` substring test. -/
def subIn (pat s : Str) : Bool :=
  decide (pat <:+: s)

/-- Python `str.strip()`. -/
def trimWs (s : Str) : Str :=
  ((s.dropWhile Char.isWhitespace).reverse.dropWhile Char.isWhitespace).reverse

/-- Python `str.split(sep)` for a one-character separator. -/
def splitOnChar (c : Char) (s : Str) : List Str :=
  s.foldr
    (fun ch acc =>
      match acc with
      | [] => [[ch]]
      | cur :: rest => if ch = c then [] :: cur :: rest else (ch :: cur) :: rest)
    [[]]

/-- Python `str.replace(pat, rep)` (all non-overlapping occurrences,
left to right); fuel-structural so that it evaluates by reduction. -/
def replaceAllGo (pat rep : Str) : Nat → Str → Str
  | 0, s => s
  | _ + 1, [] => []
  | fuel + 1, c :: rest =>
    if pat ≠ [] ∧ pat.isPrefixOf (c :: rest) then
      rep ++ replaceAllGo pat rep fuel ((c :: rest).drop pat.length)
    else
      c :: replaceAllGo pat rep fuel rest

/-- Python `s.replace(pat, rep)`. -/
def replaceAll (s pat rep : Str) : Str :=
  replaceAllGo pat rep s.length s

/-- Source `PaperFinder.extract_arxiv_id`: for URLs, the last path segment with
a `.pdf` suffix removed; other inputs pass through. -/
def extractArxivId (u : Str) : Str :=
  if "http".data.isPrefixOf u then
    replaceAll ((splitOnChar '/' u).getLastD []) ".pdf".data [].asString.data
  else u

/-- The regex `^\d{4}\.\d{4,5}(v\d+)?$` from `api_server._is_arxiv_id`. -/
def matchesArxivPattern (s : Str) : Bool :=
  let d1 := s.takeWhile Char.isDigit
  let r1 := s.dropWhile Char.isDigit
  d1.length = 4 &&
    match r1 with
    | '.' :: r2 =>
      let d2 := r2.takeWhile Char.isDigit
      let r3 := r2.dropWhile Char.isDigit
      (d2.length = 4 || d2.length = 5) &&
        match r3 with
        | [] => true
        | 'v' :: r4 => !r4.isEmpty && r4.all Char.isDigit
        | _ => false
    | _ => false

/-- Source `api_server._is_arxiv_id`: an arxiv.org URL, or the bare-id pattern. -/
def isArxivIdQuery (query : Str) : Bool :=
  let q := trimWs query
  if subIn "arxiv.org".data (q.map Char.toLower) then true
  else matchesArxivPattern q

/-- One element of the JSON array parsed out of the Gemini search
response: either not a JSON object (skipped by the parse loop) or an
object with the fields the loop reads. -/
inductive GItem where
  | notDict
  | entry (title : Option String) (authors : List String) (arxiv_url : Option Str)
  deriving DecidableEq

/-- The parse loop body of `PaperFinder._search_online_with_gemini`:
keeps only objects whose `arxiv_url` is non-empty and mentions
arxiv.org, building the option record for each. -/
def parseGeminiItem : GItem → Option Paper
  | .notDict => none
  | .entry title authors arxiv_url =>
    let url := arxiv_url.getD []
    if url = [] ∨ ¬ subIn "arxiv.org".data url then none
    else some
      { title := title.getD "Untitled"
        authors := authors
        arxiv_id := extractArxivId url
        pdf_url :=
          if subIn "/abs/".data url then
            replaceAll url "/abs/".data "/pdf/".data ++ ".pdf".data
          else url
        entry_id := url
        summary := "" }

/-- The whole parse loop, in received order. -/
def parseGemini (items : List GItem) : List Paper :=
  items.filterMap parseGeminiItem

/-! ## The orchestrator (backend/api_server.py)

Each Flask handler becomes a function from the server state (`World`)
and the request to a response and the next state.  External
collaborators are oracles in `Env`; within one request they are fixed,
matching how the code constructs fresh collaborator objects per
request. -/

/-- The external collaborators consumed by the endpoints. -/
structure Env where
  /-- Source `PaperFinder.get_paper_by_id` (arxiv lookup). -/
  paperById : Str → Option PaperInfo
  /-- Source `PaperFinder.download_paper` (arxiv PDF download). -/
  downloadPaper : PaperInfo → Option String
  /-- Source `RepoFinder.find_with_fallback` (PDF scan plus known-mapping table). -/
  findRepo : PaperInfo → Option String
  /-- The local path `RepoAnalyzer.clone_repository` derives from a URL. -/
  cloneTarget : String → String
  /-- Whether a real `git clone` of the URL succeeds. -/
  cloneOk : String → Bool
  /-- Source `ChromaIndexer.index_repository`: items indexed from a repo path. -/
  indexCount : String → Nat
  /-- Parsed JSON array from the Gemini search response (`none` covers a
  missing client, empty text, malformed JSON, or a non-list). -/
  geminiResult : Str → Option (List GItem)
  /-- Concept map generated by `QueryPipeline.initialize` on a fresh run. -/
  newConceptMap : Option ConceptMap

/-- The whole server state: session registry, persisted cache, concept
map side channel, Chroma collection document counts, the durable file
system (paths that exist), and collaborator call counters used to state
that a step was not re-run. -/
structure World where
  sm : SessionManager
  cache : PaperCache
  concept_maps : List (Str × ConceptMap)
  chroma : List (Str × Nat)
  fs : List String
  cloneCalls : Nat
  indexCalls : Nat

/-- Source `collection_manager.collection_has_documents`. -/
def collectionHasDocuments (chroma : List (Str × Nat)) (name : Str) : Bool :=
  decide ((mapLookup chroma name).getD 0 > 0)

/-- Source `RepoAnalyzer.clone_repository`: reuses an existing target directory,
otherwise clones; a failed clone cleans up and leaves no directory. -/
def cloneRepository (env : Env) (fs : List String) (url : String) :
    Option String × List String :=
  let target := env.cloneTarget url
  if target ∈ fs then (some target, fs)
  else if env.cloneOk url then (some target, target :: fs)
  else (none, fs)

/-- Response of `POST /api/search-paper`, reduced to its contract. -/
inductive SearchResponse where
  | badRequest
  | invalidSession
  | exactMatch (paper : PaperInfo)
  | noResults
  | optionsFound (options : List Paper)
  deriving DecidableEq

/-- Source `search_paper`: direct arxiv-id lookup when the query looks like an
identifier, otherwise (or when the direct lookup finds nothing) the
Gemini free-text search; candidates are stored in the session in
received order. -/
def searchFreeText (env : Env) (w : World) (sid : String) (q : Str) (now : Nat) :
    SearchResponse × World :=
  match env.geminiResult q with
  | none => (.noResults, w)
  | some items =>
    let parsed := parseGemini items
    if parsed.isEmpty then (.noResults, w)
    else
      let sm' := w.sm.updateSession sid
        [.awaitingSelectionF true, .paperOptionsF (some parsed),
         .originalQueryF (some q), .searchModeF "gemini"] now
      (.optionsFound parsed, { w with sm := sm' })

/-- Source `POST /api/search-paper`. -/
def searchPaper (env : Env) (w : World) (sid : String) (query : Str) (now : Nat) :
    SearchResponse × World :=
  let q := trimWs query
  if sid = "" ∨ q = [] then (.badRequest, w)
  else
    let gs := w.sm.getSession sid now
    let w₁ := { w with sm := gs.2 }
    match gs.1 with
    | none => (.invalidSession, w₁)
    | some _ =>
      if isArxivIdQuery q then
        match env.paperById q with
        | some paper =>
          let sm' := w₁.sm.updateSession sid
            [.awaitingSelectionF false, .paperOptionsF none,
             .originalQueryF (some q)] now
          (.exactMatch paper, { w₁ with sm := sm' })
        | none => searchFreeText env w₁ sid q now
      else searchFreeText env w₁ sid q now

/-- The `selection` request field: a number, one of the two keywords, or
any other non-numeric value (`int()` raises `ValueError`). -/
inductive Selection where
  | num (n : Int)
  | more
  | cancel
  | other
  deriving DecidableEq

/-- Response of `POST /api/select-paper`. -/
inductive SelectResponse where
  | badRequest
  | invalidSession
  | notInSelectionMode
  | cancelled
  | moreUnavailable
  | selected (arxiv_id : Str) (title : String)
  | invalidIndex
  | notANumber
  deriving DecidableEq

/-- Python truthiness of the `paper_options` attribute (`None` and the
empty list are both falsy). -/
def optionsTruthy : Option (List Paper) → Bool
  | none => false
  | some l => !l.isEmpty

/-- Source `POST /api/select-paper`. -/
def selectPaper (w : World) (sid : String) (sel : Selection) (now : Nat) :
    SelectResponse × World :=
  if sid = "" then (.badRequest, w)
  else
    let gs := w.sm.getSession sid now
    let w₁ := { w with sm := gs.2 }
    match gs.1 with
    | none => (.invalidSession, w₁)
    | some s =>
      if ¬ (s.awaiting_paper_selection ∧ optionsTruthy s.paper_options) then
        (.notInSelectionMode, w₁)
      else
        match sel with
        | .cancel =>
          let sm' := w₁.sm.updateSession sid
            [.awaitingSelectionF false, .paperOptionsF none] now
          (.cancelled, { w₁ with sm := sm' })
        | .more => (.moreUnavailable, w₁)
        | .other => (.notANumber, w₁)
        | .num n =>
          let opts := s.paper_options.getD []
          let idx := n - 1
          if h : 0 ≤ idx ∧ idx < (opts.length : Int) then
            let paper := opts.get ⟨idx.toNat, by omega⟩
            let sm' := w₁.sm.updateSession sid
              [.awaitingSelectionF false, .paperOptionsF none] now
            (.selected paper.arxiv_id paper.title, { w₁ with sm := sm' })
          else (.invalidIndex, w₁)

/-- Response of `POST /api/init-paper`; `stageFailure` carries the
`error` string of the JSON body, `ok` carries `from_cache` and
`indexed_files` (`none` stands for the string `"cached"`). -/
inductive InitResponse where
  | badRequest
  | invalidSession
  | stageFailure (error : String)
  | serverError
  | ok (from_cache : Bool) (indexed_files : Option Nat)
  deriving DecidableEq

/-- Source `concept_map_path` persisted by a fresh `init_paper` run: the side
channel location when a concept map was generated, `None` otherwise. -/
def freshConceptPath (env : Env) (id : Str) : Option String :=
  match env.newConceptMap with
  | some _ => some (normalizeId id).asString
  | none => none

/-- The metadata dict a fresh `init_paper` run hands to `cache.set`. -/
def freshCacheRecord (env : Env) (id : Str) (now : Nat) (pi : PaperInfo)
    (rp : String) (ru : Option String) (indexed : Option Nat) : CacheRecord :=
  { arxiv_id := id
    title := pi.title
    authors := pi.authors
    summary := pi.summary
    pdf_url := pi.pdf_url.getD ""
    pdf_path := pi.pdf_path
    repo_url := ru
    repo_path := some rp
    chroma_collection := some id
    chroma_indexed_at := some now
    chroma_file_count := indexed
    concept_map_path := freshConceptPath env id
    created_at := none
    last_accessed := none
    access_count := none }

/-- The continuation of `init_paper` after a failed cache-hit repo
repair: `repo_path` is `None`, so the request dies with an uncaught
exception (HTTP 500) at indexing or at `get_repo_structure`, after at
most creating the (empty) target collection. -/
def brokenRepairWorld (w : World) (id : Str) : World :=
  if collectionHasDocuments w.chroma id then w
  else { w with
    chroma := mapInsert w.chroma id ((mapLookup w.chroma id).getD 0),
    indexCalls := w.indexCalls + 1 }

/-- Steps 4–5 of `init_paper` (shared by the hit and miss paths): skip
indexing when the collection already has documents, build the pipeline
and rover, mark the session initialized, and on a fresh run persist the
concept map and the new cache entry. -/
def stepIndex (env : Env) (w : World) (sid : String) (id : Str) (now : Nat)
    (paper_info : PaperInfo) (repo_path : String) (from_cache : Bool)
    (repo_url : Option String) : InitResponse × World :=
  let collection_name := id
  let hasDocs := collectionHasDocuments w.chroma collection_name
  let indexed : Option Nat :=
    if hasDocs then none else some (env.indexCount repo_path)
  let w₁ :=
    if hasDocs then w
    else { w with
      chroma := mapInsert w.chroma collection_name (env.indexCount repo_path),
      indexCalls := w.indexCalls + 1 }
  let concept_map : Option ConceptMap :=
    if from_cache then mapLookup w₁.concept_maps (normalizeId id) else none
  let pipelineCM : Option ConceptMap :=
    if from_cache then concept_map else env.newConceptMap
  let pipeline : Pipeline := { collection := collection_name, concept_map := pipelineCM }
  let rover : RoverInstance :=
    { pipeline := pipeline, paper_info := paper_info, repo_path := repo_path }
  let sm₂ := w₁.sm.updateSession sid
    [.roverInstanceF (some rover), .paperInfoF (some paper_info),
     .repoPathF (some repo_path), .isInitializedF true, .initErrorF none] now
  let w₂ := { w₁ with sm := sm₂ }
  if from_cache then (.ok true indexed, w₂)
  else
    let cms :=
      match env.newConceptMap with
      | some cm => mapInsert w₂.concept_maps (normalizeId id) cm
      | none => w₂.concept_maps
    (.ok false indexed,
      { w₂ with
        cache := w₂.cache.set id
          (freshCacheRecord env id now paper_info repo_path repo_url indexed) now,
        concept_maps := cms })

/-- The cache-hit branch of `init_paper`: reuse the stored paper
metadata and repository path; if the path no longer exists, re-run only
the clone and patch the entry in place. -/
def initFromCache (env : Env) (w : World) (sid : String) (id : Str) (now : Nat)
    (cdata : CacheRecord) : InitResponse × World :=
  let paper_info : PaperInfo :=
    { title := cdata.title, arxiv_id := id, authors := cdata.authors,
      summary := cdata.summary, pdf_url := some cdata.pdf_url,
      pdf_path := cdata.pdf_path }
  let rp₀ : String := match cdata.repo_path with | some p => p | none => "."
  if rp₀ ∈ w.fs then
    stepIndex env w sid id now paper_info rp₀ true cdata.repo_url
  else
    match cdata.repo_url with
    | none =>
      (.serverError, brokenRepairWorld { w with cloneCalls := w.cloneCalls + 1 } id)
    | some url =>
      let cl := cloneRepository env w.fs url
      let w₂ := { w with fs := cl.2, cloneCalls := w.cloneCalls + 1 }
      match cl.1 with
      | none => (.serverError, brokenRepairWorld w₂ id)
      | some p =>
        let cache₂ := w₂.cache.updateRepoPath id p now
        stepIndex env { w₂ with cache := cache₂ } sid id now paper_info p true
          cdata.repo_url

/-- The cache-miss branch of `init_paper`: fetch the paper, find the
repository, clone it; each irrecoverable failure returns its stage. -/
def initFreshPath (env : Env) (w : World) (sid : String) (id : Str) (now : Nat) :
    InitResponse × World :=
  match env.paperById id with
  | none => (.stageFailure "Paper not found", w)
  | some info₀ =>
    let paper_info := { info₀ with pdf_path := env.downloadPaper info₀ }
    match env.findRepo paper_info with
    | none => (.stageFailure "Repository not found", w)
    | some url =>
      let cl := cloneRepository env w.fs url
      let w₂ := { w with fs := cl.2, cloneCalls := w.cloneCalls + 1 }
      match cl.1 with
      | none => (.stageFailure "Clone failed", w₂)
      | some p => stepIndex env w₂ sid id now paper_info p false (some url)

/-- Source `POST /api/init-paper`. -/
def initPaper (env : Env) (w : World) (sid : String) (id : Str) (now : Nat) :
    InitResponse × World :=
  if sid = "" ∨ trimWs id = [] then (.badRequest, w)
  else
    let a := trimWs id
    let gs := w.sm.getSession sid now
    let w₁ := { w with sm := gs.2 }
    match gs.1 with
    | none => (.invalidSession, w₁)
    | some _ =>
      let cg := w₁.cache.get a now
      let w₂ := { w₁ with cache := cg.2 }
      match cg.1 with
      | some cdata => initFromCache env w₂ sid a now cdata
      | none => initFreshPath env w₂ sid a now

/-- Source `POST /api/chat`, state effect only: whatever the outcome, the
handler mutates the registry only through the `get_session` touch. -/
def chatPaper (w : World) (sid : String) (msg : Str) (now : Nat) : World :=
  if sid = "" ∨ trimWs msg = [] then w
  else { w with sm := (w.sm.getSession sid now).2 }

/-- Source `POST /api/reset`: deletes the session and allocates a fresh one. -/
def resetSession (w : World) (sid new_sid : String) (now : Nat) : World :=
  if sid = "" then w
  else { w with sm := (w.sm.deleteSession sid).create new_sid now }

/-- Source `POST /api/session`. -/
def createSessionOp (w : World) (sid : String) (now : Nat) : World :=
  { w with sm := w.sm.create sid now }

/-! ## Characterization lemmas for the store operations -/

theorem getSession_valid (m : SessionManager) (sid : String) (s : Session) (now : Nat)
    (hs : mapLookup m.sessions sid = some s)
    (hne : s.isExpired now m.max_age_hours = false) :
    m.getSession sid now =
      (some (s.touch now),
       { m with sessions := mapInsert m.sessions sid (s.touch now) }) := by
  simp [SessionManager.getSession, hs, hne]

theorem cacheGet_miss (c : PaperCache) (id : Str) (now : Nat)
    (h : mapLookup c.cache (normalizeId id) = none) :
    c.get id now = (none, c) := by
  simp [PaperCache.get, h]

theorem cacheGet_hit (c : PaperCache) (id : Str) (now : Nat) (r : CacheRecord)
    (h : mapLookup c.cache (normalizeId id) = some r) :
    c.get id now =
      (some { r with last_accessed := some now,
                     access_count := some (r.access_count.getD 0 + 1) },
       ⟨mapInsert c.cache (normalizeId id)
          { r with last_accessed := some now,
                   access_count := some (r.access_count.getD 0 + 1) }⟩) := by
  simp [PaperCache.get, h]

/-! ## Shared concrete fixtures for witnesses and counterexamples -/

/-- A concrete paper metadata record. -/
def samplePaperInfo : PaperInfo :=
  { title := some "Attention Is All You Need", arxiv_id := "1234.56789".data,
    authors := ["A", "B"], summary := "S", pdf_url := some "u", pdf_path := none }

/-- A concrete search option. -/
def samplePaper : Paper :=
  { title := "P1", authors := ["A"], arxiv_id := "1111.11111".data,
    pdf_url := [], entry_id := [], summary := "" }

/-- A concrete cache record as `init_paper` would persist it. -/
def sampleRecord : CacheRecord :=
  { arxiv_id := "1234.56789".data, title := some "T", authors := ["A"],
    summary := "S", pdf_url := "u", pdf_path := none,
    repo_url := some "https://github.com/x/repo", repo_path := some "/repos/repo",
    chroma_collection := some "1234.56789".data, chroma_indexed_at := some 1,
    chroma_file_count := some 7, concept_map_path := none,
    created_at := none, last_accessed := none, access_count := none }

/-- A world holding one fresh session `"s"` and empty stores. -/
def baseWorld : World :=
  { sm := { sessions := [("s", Session.fresh "s" 0)], max_age_hours := 2 }
    cache := ⟨[]⟩, concept_maps := [], chroma := [], fs := [],
    cloneCalls := 0, indexCalls := 0 }

/-- Collaborators for a fully successful fresh initialization. -/
def happyEnv : Env :=
  { paperById := fun i => if i = "1234.56789".data then some samplePaperInfo else none
    downloadPaper := fun _ => some "/papers/1234.56789.pdf"
    findRepo := fun _ => some "https://github.com/x/repo"
    cloneTarget := fun _ => "/repos/repo"
    cloneOk := fun _ => true
    indexCount := fun _ => 7
    geminiResult := fun _ => none
    newConceptMap := none }

/-! ## C3 — cache identifier normalization -/

/-- C3 counterexample: the claim says the cache normalizes by stripping a
*trailing* version marker.  The code truncates at the *first* `'v'`:
`"naive"` has no trailing version marker yet is stored under `"nai"`, so
a `set` under `"naive"` makes `exists("nai")` true. -/
theorem c3_counterexample :
    normalizeId "naive".data = "nai".data ∧
    specStripTrailingVersion "naive".data = "naive".data ∧
    normalizeId "naive".data ≠ specStripTrailingVersion "naive".data ∧
    (PaperCache.set ⟨[]⟩ "naive".data sampleRecord 0).existsId "nai".data = true := by
  refine ⟨by decide, by decide, by decide, ?_⟩
  decide

/-- C3 (amended): the cache normalizes every identifier by truncating it
at its first `'v'` (which, for arxiv identifiers containing `'v'` only
as a version marker, strips that marker); consequently, after a `set`
under either `X` or `Xv2`, both `get(X)` and `get(Xv2)` address the same
single slot and hit. -/
theorem c3_normalization_collapse (x : Str) (c : PaperCache) (d : CacheRecord)
    (t u : Nat) :
    normalizeId (x ++ ['v', '2']) = normalizeId x ∧
    ((c.set x d t).get (x ++ ['v', '2']) u).1.isSome = true ∧
    ((c.set (x ++ ['v', '2']) d t).get x u).1.isSome = true := by
  refine ⟨normalizeId_append_version x, ?_, ?_⟩
  · have h : mapLookup (c.set x d t).cache (normalizeId (x ++ ['v', '2'])) ≠ none := by
      rw [normalizeId_append_version]
      simp [PaperCache.set, mapLookup_mapInsert_self]
    rcases hr : mapLookup (c.set x d t).cache (normalizeId (x ++ ['v', '2'])) with _ | r
    · exact absurd hr h
    · simp [cacheGet_hit _ _ _ _ hr]
  · have h : mapLookup (c.set (x ++ ['v', '2']) d t).cache (normalizeId x) ≠ none := by
      simp [PaperCache.set, normalizeId_append_version, mapLookup_mapInsert_self]
    rcases hr : mapLookup (c.set (x ++ ['v', '2']) d t).cache (normalizeId x) with _ | r
    · exact absurd hr h
    · simp [cacheGet_hit _ _ _ _ hr]

/-! ## C9 — cache `set` is a full overwrite -/

/-- C9: `set(id, record)` stores, under the normalized key, exactly the
record of the caller plus a fresh `last_accessed` and an `access_count`
computed from that record (`get("access_count", 0) + 1`);
`created_at` is stamped only when the key was absent, so nothing of a
previous entry survives unless the record of the caller carried it. -/
theorem c9_cache_set_overwrites (c : PaperCache) (id : Str) (data : CacheRecord)
    (now : Nat) :
    mapLookup (c.set id data now).cache (normalizeId id) =
      some { data with
        last_accessed := some now,
        access_count := some (data.access_count.getD 0 + 1),
        created_at :=
          if mapLookup c.cache (normalizeId id) = none then some now
          else data.created_at } := by
  simp [PaperCache.set, mapLookup_mapInsert_self]

/-! ## C10 — `update_session` ignores unknown fields, no-op when absent -/

/-- C10: for a stored session, `update_session` drops every keyword
argument whose name is not a `Session` attribute and still refreshes
`last_accessed` (so a call supplying only unknown names leaves the
session unchanged except for the refreshed stamp); when the session is
absent the whole store is left unchanged, whatever the arguments. -/
theorem c10_update_session_frame (m : SessionManager) (sid : String)
    (fields : List SessionField) (keys : List String) (now : Nat) :
    (mapLookup m.sessions sid = none → m.updateSession sid fields now = m) ∧
    (∀ s, mapLookup m.sessions sid = some s →
      mapLookup (m.updateSession sid (keys.map SessionField.unknown) now).sessions sid
        = some (s.touch now)) := by
  constructor
  · intro h
    simp [SessionManager.updateSession, h]
  · intro s h
    have hfold : ∀ s₀ : Session,
        (keys.map SessionField.unknown).foldl Session.applyField s₀ = s₀ := by
      induction keys with
      | nil => intro s₀; rfl
      | cons k ks ih =>
        intro s₀
        simpa [Session.applyField] using ih s₀
    simp [SessionManager.updateSession, h, hfold, mapLookup_mapInsert_self]

/-- C10 witness: a store holding session `"a"`; an update of `"b"` with
arbitrary fields is a no-op, and an update of `"a"` with only the
unknown name `"bogus"` merely refreshes the stamp. -/
theorem c10_witness :
    (({ sessions := [("a", Session.fresh "a" 0)], max_age_hours := 2 }
        : SessionManager).updateSession "b" [.isInitializedF true] 5
      = { sessions := [("a", Session.fresh "a" 0)], max_age_hours := 2 }) ∧
    (mapLookup (({ sessions := [("a", Session.fresh "a" 0)], max_age_hours := 2 }
        : SessionManager).updateSession "a"
          (["bogus"].map SessionField.unknown) 5).sessions "a"
      = some ((Session.fresh "a" 0).touch 5)) :=
  ⟨(c10_update_session_frame _ "b" [.isInitializedF true] [] 5).1 (by decide),
   (c10_update_session_frame _ "a" [] ["bogus"] 5).2 _ (by decide)⟩

/-! ## C4 — lazy expiry on access -/

/-- C4: a session idle strictly longer than the configured timeout
(`max_age_hours`, default 2 hours) is evicted by the next `get_session`:
the call returns nothing, the key is gone, and the tracked-session count
drops by one. -/
theorem c4_expired_session_evicted (m : SessionManager) (sid : String) (s : Session)
    (now : Nat)
    (hnd : (m.sessions.map Prod.fst).Nodup)
    (hs : mapLookup m.sessions sid = some s)
    (hexp : now - s.last_accessed > m.max_age_hours * 3600) :
    (m.getSession sid now).1 = none ∧
    mapLookup (m.getSession sid now).2.sessions sid = none ∧
    (m.getSession sid now).2.count + 1 = m.count := by
  have hb : s.isExpired now m.max_age_hours = true := by
    simp [Session.isExpired, hexp]
  refine ⟨?_, ?_, ?_⟩
  · simp [SessionManager.getSession, hs, hb]
  · simp [SessionManager.getSession, hs, hb, mapLookup_mapErase_self]
  · simp only [SessionManager.getSession, hs, hb, if_true, SessionManager.count]
    exact length_mapErase_of_mem _ _ hnd (by simp [hs])

/-- C4 witness: with the default 2-hour timeout, a session last touched
at time 0 is evicted by a `get_session` at 7201 seconds. -/
theorem c4_witness :
    ((({ sessions := [("a", Session.fresh "a" 0)], max_age_hours := 2 }
        : SessionManager).getSession "a" 7201).1 = none) ∧
    (mapLookup (({ sessions := [("a", Session.fresh "a" 0)], max_age_hours := 2 }
        : SessionManager).getSession "a" 7201).2.sessions "a" = none) ∧
    ((({ sessions := [("a", Session.fresh "a" 0)], max_age_hours := 2 }
        : SessionManager).getSession "a" 7201).2.count + 1
      = ({ sessions := [("a", Session.fresh "a" 0)], max_age_hours := 2 }
        : SessionManager).count) :=
  c4_expired_session_evicted _ "a" (Session.fresh "a" 0) 7201
    (by decide) (by decide) (by decide)

/-! ## C8 — invalid selections leave the session unchanged -/

/-- A session parked in the selection phase, for the C8 witness. -/
def awaitingSession : Session :=
  { Session.fresh "s" 0 with
    awaiting_paper_selection := true, paper_options := some [samplePaper] }

/-- A world whose only session is awaiting a selection. -/
def awaitingWorld : World :=
  { baseWorld with sm := { sessions := [("s", awaitingSession)], max_age_hours := 2 } }

/-- C8: from a session awaiting selection, a numeric choice whose
(1-based) index is out of range, or any non-numeric input other than the
keywords, is rejected, and the session keeps its awaiting flag and its
pending options (only `last_accessed` is refreshed by the lookup). -/
theorem c8_select_rejection_frame (w : World) (sid : String) (s : Session)
    (sel : Selection) (now : Nat)
    (hsid : sid ≠ "")
    (hs : mapLookup w.sm.sessions sid = some s)
    (hne : s.isExpired now w.sm.max_age_hours = false)
    (hawait : s.awaiting_paper_selection = true)
    (hopts : optionsTruthy s.paper_options = true)
    (hbad : sel = .other ∨
      ∃ n, sel = .num n ∧
        ¬ (0 ≤ n - 1 ∧ n - 1 < ((s.paper_options.getD []).length : Int))) :
    ((selectPaper w sid sel now).1 = .invalidIndex ∨
      (selectPaper w sid sel now).1 = .notANumber) ∧
    mapLookup (selectPaper w sid sel now).2.sm.sessions sid = some (s.touch now) := by
  have hgs := getSession_valid w.sm sid s now hs hne
  rcases hbad with hb | ⟨n, hn, hrange⟩
  · subst hb
    refine ⟨Or.inr ?_, ?_⟩
    · simp [selectPaper, hsid, hgs, Session.touch, hawait, hopts]
    · simp [selectPaper, hsid, hgs, Session.touch, hawait, hopts,
        mapLookup_mapInsert_self]
  · subst hn
    have hrange' :
        ¬ (1 ≤ n ∧ n - 1 < ((s.paper_options.getD []).length : Int)) := by
      intro hc
      exact hrange ⟨by omega, hc.2⟩
    refine ⟨Or.inl ?_, ?_⟩
    · simp [selectPaper, hsid, hgs, Session.touch, hawait, hopts, hrange']
    · simp [selectPaper, hsid, hgs, Session.touch, hawait, hopts, hrange',
        mapLookup_mapInsert_self]

/-- C8 witness: `select(99)` against a session holding one option is
rejected as out of range and the awaiting state and options survive. -/
theorem c8_witness :
    ((selectPaper awaitingWorld "s" (.num 99) 5).1 = .invalidIndex ∨
      (selectPaper awaitingWorld "s" (.num 99) 5).1 = .notANumber) ∧
    mapLookup (selectPaper awaitingWorld "s" (.num 99) 5).2.sm.sessions "s"
      = some (awaitingSession.touch 5) :=
  c8_select_rejection_frame awaitingWorld "s" awaitingSession (.num 99) 5
    (by decide) (by decide) (by decide) (by decide) (by decide)
    (Or.inr ⟨99, rfl, by decide⟩)

/-! ## C2 — failures of a fresh initialize never write the cache -/

/-- Whether an `init_paper` response is the success shape. -/
def InitResponse.isOk : InitResponse → Bool
  | .ok _ _ => true
  | _ => false

/-- Collaborators whose paper lookup finds nothing. -/
def envNoPaper : Env := { happyEnv with paperById := fun _ => none }

theorem stepIndex_fresh_isOk (env : Env) (w : World) (sid : String) (id : Str)
    (now : Nat) (pi : PaperInfo) (rp : String) (ru : Option String) :
    (stepIndex env w sid id now pi rp false ru).1.isOk = true := by
  cases hcm : env.newConceptMap <;>
    by_cases hD : collectionHasDocuments w.chroma id <;>
      simp [stepIndex, hcm, hD, InitResponse.isOk]

theorem stepIndex_fresh_lookup (env : Env) (w : World) (sid : String) (id : Str)
    (now : Nat) (pi : PaperInfo) (rp : String) (ru : Option String) :
    (mapLookup (stepIndex env w sid id now pi rp false ru).2.cache.cache
      (normalizeId id)).isSome = true := by
  cases hcm : env.newConceptMap <;>
    by_cases hD : collectionHasDocuments w.chroma id <;>
      simp [stepIndex, hcm, hD, PaperCache.set, mapLookup_mapInsert_self]

/-- C2: starting from a cache miss for the (normalized, stripped) paper
identifier, any non-success outcome of `init_paper` leaves the cache
exactly as it was — the single cache write sits after the last
fallible step; a success guarantees the entry is present. -/
theorem c2_fresh_failure_never_cached (env : Env) (w : World) (sid : String)
    (id : Str) (now : Nat)
    (hmiss : mapLookup w.cache.cache (normalizeId (trimWs id)) = none) :
    ((initPaper env w sid id now).1.isOk = false →
      (initPaper env w sid id now).2.cache = w.cache) ∧
    ((initPaper env w sid id now).1.isOk = true →
      (mapLookup (initPaper env w sid id now).2.cache.cache
        (normalizeId (trimWs id))).isSome = true) := by
  by_cases h0 : sid = "" ∨ trimWs id = []
  · constructor <;> intro h <;> simp_all [initPaper, h0, InitResponse.isOk]
  · rcases hgs : w.sm.getSession sid now with ⟨os, sm1⟩
    have hget : w.cache.get (trimWs id) now = (none, w.cache) :=
      cacheGet_miss _ _ _ hmiss
    cases os with
    | none =>
      constructor <;> intro h <;> simp_all [initPaper, h0, hgs, InitResponse.isOk]
    | some s =>
      cases hpb : env.paperById (trimWs id) with
      | none =>
        constructor <;> intro h <;>
          simp_all [initPaper, h0, hgs, hget, initFreshPath, hpb, InitResponse.isOk]
      | some info =>
        cases hfr : env.findRepo { info with pdf_path := env.downloadPaper info } with
        | none =>
          constructor <;> intro h <;>
            simp_all [initPaper, h0, hgs, hget, initFreshPath, hpb, hfr,
              InitResponse.isOk]
        | some url =>
          by_cases htg : env.cloneTarget url ∈ w.fs
          · constructor <;> intro h <;>
              simp_all [initPaper, h0, hgs, hget, initFreshPath, hpb, hfr,
                cloneRepository, htg, stepIndex_fresh_isOk, stepIndex_fresh_lookup]
          · by_cases hok : env.cloneOk url = true
            · constructor <;> intro h <;>
                simp_all [initPaper, h0, hgs, hget, initFreshPath, hpb, hfr,
                  cloneRepository, htg, hok, stepIndex_fresh_isOk,
                  stepIndex_fresh_lookup]
            · constructor <;> intro h <;>
                simp_all [initPaper, h0, hgs, hget, initFreshPath, hpb, hfr,
                  cloneRepository, htg, hok, InitResponse.isOk]

/-- C2 witness: with a paper lookup that fails, the failing fresh
initialize leaves the empty cache empty; with fully successful
collaborators, the entry is present afterwards. -/
theorem c2_witness :
    (initPaper envNoPaper baseWorld "s" "1234.56789".data 5).2.cache
      = baseWorld.cache ∧
    (mapLookup (initPaper happyEnv baseWorld "s" "1234.56789".data 5).2.cache.cache
      (normalizeId (trimWs "1234.56789".data))).isSome = true :=
  ⟨(c2_fresh_failure_never_cached envNoPaper baseWorld "s" "1234.56789".data 5
      (by decide)).1 (by decide),
   (c2_fresh_failure_never_cached happyEnv baseWorld "s" "1234.56789".data 5
      (by decide)).2 (by decide)⟩

/-! ## C1 — failing stages are reported, but no Failed transition exists -/

/-- C1 counterexample: an initialize whose paper lookup fails does
report the failing stage, but the session does not transition to any
Failed state — it is bit-for-bit the fresh session with only its
last-accessed stamp refreshed; in particular `initialization_error` is
never set and `is_initialized` stays false. -/
theorem c1_counterexample :
    (initPaper envNoPaper baseWorld "s" "1234.56789".data 5).1
      = .stageFailure "Paper not found" ∧
    mapLookup (initPaper envNoPaper baseWorld "s" "1234.56789".data 5).2.sm.sessions "s"
      = some ((Session.fresh "s" 0).touch 5) ∧
    ((Session.fresh "s" 0).touch 5).initialization_error = none ∧
    ((Session.fresh "s" 0).touch 5).is_initialized = false := by
  exact ⟨by decide, by decide, by decide, by decide⟩

/-- C1 (amended): when an irrecoverable sub-step of a fresh initialize
fails, the response names the failing stage (one of `Paper not found`,
`Repository not found`, `Clone failed`), but the session is *not* moved
to a Failed state: it is unchanged except for the `last_accessed`
refresh performed by the session lookup. -/
theorem c1_stage_failure_names_stage (env : Env) (w : World) (sid : String)
    (s : Session) (id : Str) (now : Nat) (e : String)
    (hs : mapLookup w.sm.sessions sid = some s)
    (hne : s.isExpired now w.sm.max_age_hours = false)
    (hmiss : mapLookup w.cache.cache (normalizeId (trimWs id)) = none)
    (hf : (initPaper env w sid id now).1 = .stageFailure e) :
    (e = "Paper not found" ∨ e = "Repository not found" ∨ e = "Clone failed") ∧
    mapLookup (initPaper env w sid id now).2.sm.sessions sid = some (s.touch now) := by
  have hgs := getSession_valid w.sm sid s now hs hne
  by_cases h0 : sid = "" ∨ trimWs id = []
  · rw [show (initPaper env w sid id now) = (.badRequest, w) by simp [initPaper, h0]] at hf
    cases hf
  · have hget : w.cache.get (trimWs id) now = (none, w.cache) :=
      cacheGet_miss _ _ _ hmiss
    cases hpb : env.paperById (trimWs id) with
    | none =>
      constructor
      · have : e = "Paper not found" := by
          have := hf
          simp_all [initPaper, h0, hgs, hget, initFreshPath, hpb]
        exact Or.inl this
      · simp_all [initPaper, h0, hgs, hget, initFreshPath, hpb,
          mapLookup_mapInsert_self]
    | some info =>
      cases hfr : env.findRepo { info with pdf_path := env.downloadPaper info } with
      | none =>
        constructor
        · have : e = "Repository not found" := by
            have := hf
            simp_all [initPaper, h0, hgs, hget, initFreshPath, hpb, hfr]
          exact Or.inr (Or.inl this)
        · simp_all [initPaper, h0, hgs, hget, initFreshPath, hpb, hfr,
            mapLookup_mapInsert_self]
      | some url =>
        by_cases htg : env.cloneTarget url ∈ w.fs
        · exfalso
          simp [initPaper, h0, hgs, hget, initFreshPath, hpb, hfr,
            cloneRepository, htg] at hf
          have h2 := congrArg InitResponse.isOk hf
          rw [stepIndex_fresh_isOk] at h2
          simp [InitResponse.isOk] at h2
        · by_cases hok : env.cloneOk url = true
          · exfalso
            simp [initPaper, h0, hgs, hget, initFreshPath, hpb, hfr,
              cloneRepository, htg, hok] at hf
            have h2 := congrArg InitResponse.isOk hf
            rw [stepIndex_fresh_isOk] at h2
            simp [InitResponse.isOk] at h2
          · constructor
            · have : e = "Clone failed" := by
                have := hf
                simp_all [initPaper, h0, hgs, hget, initFreshPath, hpb, hfr,
                  cloneRepository, htg, hok]
              exact Or.inr (Or.inr this)
            · simp_all [initPaper, h0, hgs, hget, initFreshPath, hpb, hfr,
                cloneRepository, htg, hok, mapLookup_mapInsert_self]

/-- C1 witness: the amended statement at the concrete failing input of
the counterexample run. -/
theorem c1_witness :
    (("Paper not found" : String) = "Paper not found" ∨
      ("Paper not found" : String) = "Repository not found" ∨
      ("Paper not found" : String) = "Clone failed") ∧
    mapLookup (initPaper envNoPaper baseWorld "s" "1234.56789".data 5).2.sm.sessions "s"
      = some ((Session.fresh "s" 0).touch 5) :=
  c1_stage_failure_names_stage envNoPaper baseWorld "s" (Session.fresh "s" 0)
    "1234.56789".data 5 "Paper not found"
    (by decide) (by decide) (by decide) (by decide)

/-! ## C7 — free-text search candidates -/

/-- A parsed Gemini response with four valid arxiv entries (plus one
non-object element and one non-arxiv entry, which the loop drops). -/
def fourGItems : List GItem :=
  [ .entry (some "P1") ["A"] (some "https://arxiv.org/abs/1111.11111".data),
    .notDict,
    .entry (some "P2") [] (some "https://arxiv.org/abs/2222.22222".data),
    .entry (some "X") [] (some "https://example.com/zzz".data),
    .entry (some "P3") [] (some "https://arxiv.org/abs/3333.33333".data),
    .entry (some "P4") [] (some "https://arxiv.org/abs/4444.44444".data) ]

/-- Collaborators whose Gemini search returns `fourGItems`. -/
def gemEnv : Env :=
  { happyEnv with geminiResult := fun _ => some fourGItems }

/-- C7 counterexample: the 3-candidate limit lives only in the prompt
text sent to Gemini; the parse loop and the orchestrator never truncate.
A search whose response parses to four valid entries leaves the session
in AwaitingSelection holding four options — more than 3. -/
theorem c7_counterexample :
    (searchPaper gemEnv baseWorld "s" "graph neural networks".data 5).1
      = .optionsFound (parseGemini fourGItems) ∧
    ((mapLookup (searchPaper gemEnv baseWorld "s"
        "graph neural networks".data 5).2.sm.sessions "s").map
      (fun t => (t.awaiting_paper_selection, (t.paper_options.getD []).length)))
      = some (true, 4) ∧
    ¬ (parseGemini fourGItems).length ≤ 3 := by
  exact ⟨by decide, by decide, by decide⟩

/-- C7 (amended): a free-text (non-identifier) search that yields
results puts the session in AwaitingSelection holding exactly the valid
candidates parsed from the search response, in the order received; the
count equals the number of valid entries the search returned (3 is
requested in the prompt but not enforced by the code). -/
theorem c7_search_options_as_received (env : Env) (w : World) (sid : String)
    (s : Session) (query : Str) (items : List GItem) (now : Nat)
    (hsid : sid ≠ "")
    (hs : mapLookup w.sm.sessions sid = some s)
    (hne : s.isExpired now w.sm.max_age_hours = false)
    (hq : trimWs query ≠ [])
    (hnid : isArxivIdQuery (trimWs query) = false)
    (hg : env.geminiResult (trimWs query) = some items)
    (hp : parseGemini items ≠ []) :
    (searchPaper env w sid query now).1 = .optionsFound (parseGemini items) ∧
    mapLookup (searchPaper env w sid query now).2.sm.sessions sid
      = some { s with awaiting_paper_selection := true,
                      paper_options := some (parseGemini items),
                      original_query := some (trimWs query),
                      search_mode := "gemini",
                      last_accessed := now } := by
  have hgs := getSession_valid w.sm sid s now hs hne
  have hpe : (parseGemini items).isEmpty = false := by
    cases hl : parseGemini items with
    | nil => exact absurd hl hp
    | cons a t => rfl
  constructor
  · simp [searchPaper, hsid, hq, hgs, hnid, searchFreeText, hg, hpe]
  · simp [searchPaper, hsid, hq, hgs, hnid, searchFreeText, hg, hpe,
      SessionManager.updateSession, mapLookup_mapInsert_self, Session.applyField,
      Session.touch]

/-- C7 witness: the amended statement at the four-entry response. -/
theorem c7_witness :
    (searchPaper gemEnv baseWorld "s" "graph neural networks".data 5).1
      = .optionsFound (parseGemini fourGItems) ∧
    mapLookup (searchPaper gemEnv baseWorld "s"
        "graph neural networks".data 5).2.sm.sessions "s"
      = some { Session.fresh "s" 0 with
                awaiting_paper_selection := true,
                paper_options := some (parseGemini fourGItems),
                original_query := some (trimWs "graph neural networks".data),
                search_mode := "gemini",
                last_accessed := 5 } :=
  c7_search_options_as_received gemEnv baseWorld "s" (Session.fresh "s" 0)
    "graph neural networks".data fourGItems 5
    (by decide) (by decide) (by decide) (by decide) (by decide) (by decide)
    (by decide)

/-! ## C6 — a second initialize is a cache hit with no re-clone/re-index -/

/-- The session contents after a successful `init_paper` update. -/
def sessionAfterInit (env : Env) (s : Session) (id : Str) (now : Nat)
    (pi : PaperInfo) (rp : String) : Session :=
  { s with
    rover_instance := some
      { pipeline := { collection := id, concept_map := env.newConceptMap }
        paper_info := pi
        repo_path := rp }
    paper_info := some pi
    repo_path := some rp
    is_initialized := true
    initialization_error := none
    last_accessed := now }

theorem initPaper_fresh_success (env : Env) (w : World) (sid : String) (s : Session)
    (id : Str) (now : Nat) (info : PaperInfo) (url : String)
    (hsid : sid ≠ "") (hid : trimWs id = id) (hidne : id ≠ [])
    (hs : mapLookup w.sm.sessions sid = some s)
    (hne : s.isExpired now w.sm.max_age_hours = false)
    (hmiss : mapLookup w.cache.cache (normalizeId id) = none)
    (hpb : env.paperById id = some info)
    (hfr : env.findRepo { info with pdf_path := env.downloadPaper info } = some url)
    (hok : env.cloneOk url = true) :
    (initPaper env w sid id now).1 = .ok false
      (if collectionHasDocuments w.chroma id then none
       else some (env.indexCount (env.cloneTarget url))) ∧
    mapLookup (initPaper env w sid id now).2.sm.sessions sid
      = some (sessionAfterInit env s id now
          { info with pdf_path := env.downloadPaper info } (env.cloneTarget url)) ∧
    mapLookup (initPaper env w sid id now).2.cache.cache (normalizeId id)
      = some { freshCacheRecord env id now
                 { info with pdf_path := env.downloadPaper info }
                 (env.cloneTarget url) (some url)
                 (if collectionHasDocuments w.chroma id then none
                  else some (env.indexCount (env.cloneTarget url))) with
               last_accessed := some now, access_count := some 1,
               created_at := some now } ∧
    env.cloneTarget url ∈ (initPaper env w sid id now).2.fs ∧
    ((mapLookup w.chroma id).getD 0 > 0 ∨ 0 < env.indexCount (env.cloneTarget url) →
      0 < (mapLookup (initPaper env w sid id now).2.chroma id).getD 0) ∧
    (initPaper env w sid id now).2.sm.max_age_hours = w.sm.max_age_hours := by
  have hgs := getSession_valid w.sm sid s now hs hne
  have h0 : ¬ (sid = "" ∨ id = []) := by
    push_neg
    exact ⟨hsid, hidne⟩
  have hget : w.cache.get id now = (none, w.cache) :=
    cacheGet_miss _ _ _ hmiss
  by_cases htg : env.cloneTarget url ∈ w.fs <;>
    by_cases hD : collectionHasDocuments w.chroma id <;>
      refine ⟨?_, ?_, ?_, ?_, ?_, ?_⟩ <;>
        simp [initPaper, h0, hgs, hget, hid, initFreshPath, hpb, hfr,
          cloneRepository, htg, hok, stepIndex, hD, sessionAfterInit,
          SessionManager.updateSession, mapLookup_mapInsert_self,
          Session.applyField, Session.touch, PaperCache.set, freshCacheRecord,
          hmiss] <;>
        first
        | (intro hdisj
           rcases hdisj with hd | hd
           · exact absurd (by simpa [collectionHasDocuments] using hd) hD
           · exact hd)
        | (intro hdisj
           simp [collectionHasDocuments] at hD
           exact hD)

theorem initPaper_cached_fast (env : Env) (w : World) (sid : String) (s : Session)
    (id : Str) (now : Nat) (r : CacheRecord) (p : String)
    (hsid : sid ≠ "") (hid : trimWs id = id) (hidne : id ≠ [])
    (hs : mapLookup w.sm.sessions sid = some s)
    (hne : s.isExpired now w.sm.max_age_hours = false)
    (hhit : mapLookup w.cache.cache (normalizeId id) = some r)
    (hrp : r.repo_path = some p) (hfs : p ∈ w.fs)
    (hdocs : 0 < (mapLookup w.chroma id).getD 0) :
    (initPaper env w sid id now).1 = .ok true none ∧
    (initPaper env w sid id now).2.cloneCalls = w.cloneCalls ∧
    (initPaper env w sid id now).2.indexCalls = w.indexCalls ∧
    mapLookup (initPaper env w sid id now).2.cache.cache (normalizeId id)
      = some { r with last_accessed := some now,
                      access_count := some (r.access_count.getD 0 + 1) } := by
  have hgs := getSession_valid w.sm sid s now hs hne
  have h0 : ¬ (sid = "" ∨ id = []) := by
    push_neg
    exact ⟨hsid, hidne⟩
  have hget := cacheGet_hit w.cache id now r hhit
  have hD : collectionHasDocuments w.chroma id = true := by
    simpa [collectionHasDocuments] using hdocs
  refine ⟨?_, ?_, ?_, ?_⟩ <;>
    simp [initPaper, h0, hid, hgs, hget, initFromCache, hrp, hfs, stepIndex, hD,
      SessionManager.updateSession, mapLookup_mapInsert_self, Session.applyField,
      Session.touch]

/-- Collaborators that index zero items (a repository holding none of
the indexable extensions). -/
def envZeroIndex : Env := { happyEnv with indexCount := fun _ => 0 }

/-- C6 counterexample: a first initialize that indexes zero items leaves
the collection empty, so the second initialize — although served as a
cache hit — runs the indexing step again (`indexCalls` grows), contrary
to the claim that no re-index is performed. -/
theorem c6_counterexample :
    (initPaper envZeroIndex baseWorld "s" "1234.56789".data 10).1
      = .ok false (some 0) ∧
    (initPaper envZeroIndex
        (initPaper envZeroIndex baseWorld "s" "1234.56789".data 10).2
        "s" "1234.56789".data 20).1 = .ok true (some 0) ∧
    (initPaper envZeroIndex
        (initPaper envZeroIndex baseWorld "s" "1234.56789".data 10).2
        "s" "1234.56789".data 20).2.indexCalls
      = (initPaper envZeroIndex baseWorld "s" "1234.56789".data 10).2.indexCalls
        + 1 := by
  exact ⟨by decide, by decide, by decide⟩

/-- C6 (amended): provided the first successful fresh initialize leaves
indexed content in the collection (it indexed at least one item, or the
collection already had content), a second initialize for the same id is
served as a cache hit (`from_cache` true, indexed count reported as
cached), performs no re-clone and no re-index, and leaves the stored
index timestamp unchanged; with an empty collection the clone is still
skipped but indexing runs again. -/
theorem c6_second_init_cached (env : Env) (w : World) (sid : String) (s : Session)
    (id : Str) (info : PaperInfo) (url : String) (t1 t2 : Nat)
    (hsid : sid ≠ "") (hid : trimWs id = id) (hidne : id ≠ [])
    (hs : mapLookup w.sm.sessions sid = some s)
    (hne1 : t1 - s.last_accessed ≤ w.sm.max_age_hours * 3600)
    (hne2 : t2 - t1 ≤ w.sm.max_age_hours * 3600)
    (hmiss : mapLookup w.cache.cache (normalizeId id) = none)
    (hpb : env.paperById id = some info)
    (hfr : env.findRepo { info with pdf_path := env.downloadPaper info } = some url)
    (hok : env.cloneOk url = true)
    (hidx : (mapLookup w.chroma id).getD 0 > 0 ∨
      0 < env.indexCount (env.cloneTarget url)) :
    (∃ c, (initPaper env w sid id t1).1 = .ok false c) ∧
    (initPaper env (initPaper env w sid id t1).2 sid id t2).1 = .ok true none ∧
    (initPaper env (initPaper env w sid id t1).2 sid id t2).2.cloneCalls
      = (initPaper env w sid id t1).2.cloneCalls ∧
    (initPaper env (initPaper env w sid id t1).2 sid id t2).2.indexCalls
      = (initPaper env w sid id t1).2.indexCalls ∧
    (mapLookup (initPaper env w sid id t1).2.cache.cache (normalizeId id)).map
      CacheRecord.chroma_indexed_at = some (some t1) ∧
    (mapLookup (initPaper env (initPaper env w sid id t1).2 sid id t2).2.cache.cache
      (normalizeId id)).map CacheRecord.chroma_indexed_at = some (some t1) := by
  have hneb : s.isExpired t1 w.sm.max_age_hours = false := by
    simp only [Session.isExpired, decide_eq_false_iff_not]
    omega
  obtain ⟨hF1, hF2, hF3, hF4, hF5, hF6⟩ :=
    initPaper_fresh_success env w sid s id t1 info url hsid hid hidne hs hneb
      hmiss hpb hfr hok
  have hne1' : (sessionAfterInit env s id t1
      { info with pdf_path := env.downloadPaper info }
      (env.cloneTarget url)).isExpired t2
        (initPaper env w sid id t1).2.sm.max_age_hours = false := by
    rw [hF6]
    simp only [Session.isExpired, sessionAfterInit, decide_eq_false_iff_not]
    omega
  have hrp1 : ({ freshCacheRecord env id t1
      { info with pdf_path := env.downloadPaper info }
      (env.cloneTarget url) (some url)
      (if collectionHasDocuments w.chroma id then none
       else some (env.indexCount (env.cloneTarget url))) with
      last_accessed := some t1, access_count := some 1,
      created_at := some t1 } : CacheRecord).repo_path
        = some (env.cloneTarget url) := by
    simp [freshCacheRecord]
  have hdocs1 : 0 < (mapLookup (initPaper env w sid id t1).2.chroma id).getD 0 :=
    hF5 hidx
  obtain ⟨hG1, hG2, hG3, hG4⟩ :=
    initPaper_cached_fast env (initPaper env w sid id t1).2 sid _ id t2 _
      (env.cloneTarget url) hsid hid hidne hF2 hne1' hF3 hrp1 hF4 hdocs1
  refine ⟨⟨_, hF1⟩, hG1, hG2, hG3, ?_, ?_⟩
  · rw [hF3]
    simp [freshCacheRecord]
  · rw [hG4]
    simp [freshCacheRecord]

/-- C6 witness: the amended statement at the fully successful concrete
collaborators (seven indexed items), run at times 10 and 20. -/
theorem c6_witness :
    (∃ c, (initPaper happyEnv baseWorld "s" "1234.56789".data 10).1
      = .ok false c) ∧
    (initPaper happyEnv (initPaper happyEnv baseWorld "s" "1234.56789".data 10).2
      "s" "1234.56789".data 20).1 = .ok true none ∧
    (initPaper happyEnv (initPaper happyEnv baseWorld "s" "1234.56789".data 10).2
      "s" "1234.56789".data 20).2.cloneCalls
      = (initPaper happyEnv baseWorld "s" "1234.56789".data 10).2.cloneCalls ∧
    (initPaper happyEnv (initPaper happyEnv baseWorld "s" "1234.56789".data 10).2
      "s" "1234.56789".data 20).2.indexCalls
      = (initPaper happyEnv baseWorld "s" "1234.56789".data 10).2.indexCalls ∧
    (mapLookup (initPaper happyEnv baseWorld "s" "1234.56789".data 10).2.cache.cache
      (normalizeId "1234.56789".data)).map CacheRecord.chroma_indexed_at
      = some (some 10) ∧
    (mapLookup (initPaper happyEnv
        (initPaper happyEnv baseWorld "s" "1234.56789".data 10).2
        "s" "1234.56789".data 20).2.cache.cache
      (normalizeId "1234.56789".data)).map CacheRecord.chroma_indexed_at
      = some (some 10) :=
  c6_second_init_cached happyEnv baseWorld "s" (Session.fresh "s" 0)
    "1234.56789".data samplePaperInfo "https://github.com/x/repo" 10 20
    (by decide) (by decide) (by decide) (by decide) (by decide) (by decide)
    (by decide) (by decide) (by decide) (by decide) (Or.inr (by decide))

/-! ## C5 — the session invariant over all orchestrator operations -/

/-- The claimed per-session invariant: pending options are non-empty
exactly in the awaiting-selection state, and the rover handle is present
exactly in the initialized state. -/
def sessionInv (s : Session) : Prop :=
  optionsTruthy s.paper_options = s.awaiting_paper_selection ∧
  s.rover_instance.isSome = s.is_initialized

/-- Every stored session satisfies the invariant. -/
def smInv (m : SessionManager) : Prop :=
  ∀ sid s, mapLookup m.sessions sid = some s → sessionInv s

theorem sessionInv_fresh (sid : String) (now : Nat) :
    sessionInv (Session.fresh sid now) := by
  simp [sessionInv, Session.fresh, optionsTruthy]

theorem sessionInv_touch {s : Session} (h : sessionInv s) (now : Nat) :
    sessionInv (s.touch now) := h

theorem smInv_insert {m : SessionManager} {k : String} {v : Session}
    (hm : smInv m) (hv : sessionInv v) (sess : List (String × Session))
    (hxs : sess = mapInsert m.sessions k v) :
    smInv { m with sessions := sess } := by
  intro sid s hlook
  subst hxs
  rw [mapLookup_mapInsert] at hlook
  by_cases h : k = sid
  · rw [if_pos h] at hlook
    cases hlook
    exact hv
  · rw [if_neg h] at hlook
    exact hm sid s hlook

theorem smInv_erase {m : SessionManager} (hm : smInv m) (k : String)
    (sess : List (String × Session)) (hxs : sess = mapErase m.sessions k) :
    smInv { m with sessions := sess } := by
  intro sid s hlook
  subst hxs
  rw [mapLookup_mapErase] at hlook
  by_cases h : k = sid
  · rw [if_pos h] at hlook
    cases hlook
  · rw [if_neg h] at hlook
    exact hm sid s hlook

theorem smInv_create {m : SessionManager} (hm : smInv m) (sid : String) (now : Nat) :
    smInv (m.create sid now) :=
  smInv_insert hm (sessionInv_fresh sid now) _ rfl

theorem smInv_getSession {m : SessionManager} (hm : smInv m) (sid : String)
    (now : Nat) : smInv (m.getSession sid now).2 := by
  unfold SessionManager.getSession
  cases hl : mapLookup m.sessions sid with
  | none => simpa using hm
  | some s =>
    by_cases he : s.isExpired now m.max_age_hours
    · simpa [hl, he] using smInv_erase hm sid _ rfl
    · simpa [hl, he] using
        smInv_insert hm (sessionInv_touch (hm sid s hl) now) _ rfl

theorem smInv_updateSession {m : SessionManager} (hm : smInv m) (sid : String)
    (fields : List SessionField) (now : Nat)
    (hf : ∀ s, sessionInv s →
      sessionInv ((fields.foldl Session.applyField s).touch now)) :
    smInv (m.updateSession sid fields now) := by
  unfold SessionManager.updateSession
  cases hl : mapLookup m.sessions sid with
  | none => simpa using hm
  | some s =>
    simpa [hl] using smInv_insert hm (hf s (hm sid s hl)) _ rfl

theorem foldClear_inv (now : Nat) :
    ∀ s, sessionInv s → sessionInv
      (([SessionField.awaitingSelectionF false,
         SessionField.paperOptionsF none].foldl
          Session.applyField s).touch now) := by
  intro s hs
  simpa [Session.applyField, Session.touch, sessionInv, optionsTruthy] using hs.2

theorem foldClearQuery_inv (q : Str) (now : Nat) :
    ∀ s, sessionInv s → sessionInv
      (([SessionField.awaitingSelectionF false,
         SessionField.paperOptionsF none,
         SessionField.originalQueryF (some q)].foldl
          Session.applyField s).touch now) := by
  intro s hs
  simpa [Session.applyField, Session.touch, sessionInv, optionsTruthy] using hs.2

theorem foldOptions_inv (opts : List Paper) (hne : opts.isEmpty = false)
    (q : Str) (now : Nat) :
    ∀ s, sessionInv s → sessionInv
      (([SessionField.awaitingSelectionF true,
         SessionField.paperOptionsF (some opts),
         SessionField.originalQueryF (some q),
         SessionField.searchModeF "gemini"].foldl
          Session.applyField s).touch now) := by
  intro s hs
  simp [Session.applyField, Session.touch, sessionInv, optionsTruthy, hne]
  exact hs.2

theorem foldInit_inv (rover : RoverInstance) (pi : PaperInfo) (rp : String)
    (now : Nat) :
    ∀ s, sessionInv s → sessionInv
      (([SessionField.roverInstanceF (some rover),
         SessionField.paperInfoF (some pi),
         SessionField.repoPathF (some rp),
         SessionField.isInitializedF true,
         SessionField.initErrorF none].foldl
          Session.applyField s).touch now) := by
  intro s hs
  simp [Session.applyField, Session.touch, sessionInv, optionsTruthy]
  exact hs.1

theorem searchFreeText_inv (env : Env) (w : World) (sid : String) (q : Str)
    (now : Nat) (hm : smInv w.sm) : smInv (searchFreeText env w sid q now).2.sm := by
  unfold searchFreeText
  cases hg : env.geminiResult q with
  | none => simpa using hm
  | some items =>
    by_cases hpe : (parseGemini items).isEmpty
    · simpa [hg, hpe] using hm
    · have hpe' : (parseGemini items).isEmpty = false := by
        cases h : (parseGemini items).isEmpty
        · rfl
        · exact absurd h hpe
      simpa [hg, hpe'] using
        smInv_updateSession hm sid _ now (foldOptions_inv _ hpe' q now)

theorem searchPaper_inv (env : Env) (w : World) (sid : String) (query : Str)
    (now : Nat) (hm : smInv w.sm) : smInv (searchPaper env w sid query now).2.sm := by
  unfold searchPaper
  by_cases h0 : sid = "" ∨ trimWs query = []
  · simpa [h0] using hm
  · rcases hgs : w.sm.getSession sid now with ⟨os, sm1⟩
    have hm1 : smInv sm1 := by
      have h := smInv_getSession hm sid now
      rwa [hgs] at h
    cases os with
    | none => simpa [h0, hgs] using hm1
    | some s =>
      by_cases hid : isArxivIdQuery (trimWs query)
      · cases hpb : env.paperById (trimWs query) with
        | some paper =>
          simpa [h0, hgs, hid, hpb] using
            smInv_updateSession hm1 sid _ now (foldClearQuery_inv (trimWs query) now)
        | none =>
          simpa [h0, hgs, hid, hpb] using
            searchFreeText_inv env { w with sm := sm1 } sid (trimWs query) now hm1
      · simpa [h0, hgs, hid] using
          searchFreeText_inv env { w with sm := sm1 } sid (trimWs query) now hm1

theorem selectPaper_inv (w : World) (sid : String) (sel : Selection) (now : Nat)
    (hm : smInv w.sm) : smInv (selectPaper w sid sel now).2.sm := by
  unfold selectPaper
  by_cases h0 : sid = ""
  · simpa [h0] using hm
  · rcases hgs : w.sm.getSession sid now with ⟨os, sm1⟩
    have hm1 : smInv sm1 := by
      have h := smInv_getSession hm sid now
      rwa [hgs] at h
    cases os with
    | none => simpa [h0, hgs] using hm1
    | some s =>
      by_cases hsel : s.awaiting_paper_selection ∧ optionsTruthy s.paper_options
      · cases sel with
        | cancel =>
          simpa [h0, hgs, hsel] using
            smInv_updateSession hm1 sid _ now (foldClear_inv now)
        | more => simpa [h0, hgs, hsel] using hm1
        | other => simpa [h0, hgs, hsel] using hm1
        | num n =>
          by_cases hc : 1 ≤ (n : Int) ∧
              (n : Int) - 1 < ((s.paper_options.getD []).length : Int)
          · simpa [h0, hgs, hsel, hc] using
              smInv_updateSession hm1 sid _ now (foldClear_inv now)
          · simpa [h0, hgs, hsel, hc] using hm1
      · simpa [h0, hgs, hsel] using hm1

theorem brokenRepair_sm (w : World) (id : Str) :
    (brokenRepairWorld w id).sm = w.sm := by
  unfold brokenRepairWorld
  split <;> rfl

theorem stepIndex_inv (env : Env) (w : World) (sid : String) (id : Str) (now : Nat)
    (pi : PaperInfo) (rp : String) (fc : Bool) (ru : Option String)
    (hm : smInv w.sm) : smInv (stepIndex env w sid id now pi rp fc ru).2.sm := by
  unfold stepIndex
  by_cases hD : collectionHasDocuments w.chroma id <;>
    cases hcm : env.newConceptMap <;>
      cases fc <;>
        simp [hD, hcm] <;>
          exact smInv_updateSession hm sid _ now (foldInit_inv _ _ _ now)

theorem initFromCache_inv (env : Env) (w : World) (sid : String) (id : Str)
    (now : Nat) (cdata : CacheRecord) (hm : smInv w.sm) :
    smInv (initFromCache env w sid id now cdata).2.sm := by
  unfold initFromCache
  by_cases hfs : (match cdata.repo_path with | some p => p | none => ".") ∈ w.fs
  · simpa [hfs] using stepIndex_inv env w sid id now _ _ true cdata.repo_url hm
  · cases hru : cdata.repo_url with
    | none =>
      have hgoal : smInv
          (brokenRepairWorld { w with cloneCalls := w.cloneCalls + 1 } id).sm := by
        rw [brokenRepair_sm]
        exact hm
      simpa [hfs, hru] using hgoal
    | some url =>
      rcases hcl : cloneRepository env w.fs url with ⟨res, fs2⟩
      cases res with
      | none =>
        have hgoal : smInv
            (brokenRepairWorld
              { w with fs := fs2, cloneCalls := w.cloneCalls + 1 } id).sm := by
          rw [brokenRepair_sm]
          exact hm
        simpa [hfs, hru, hcl] using hgoal
      | some p =>
        have h := stepIndex_inv env
          (World.mk w.sm (w.cache.updateRepoPath id p now) w.concept_maps
            w.chroma fs2 (w.cloneCalls + 1) w.indexCalls)
          sid id now
          (PaperInfo.mk cdata.title id cdata.authors cdata.summary
            (some cdata.pdf_url) cdata.pdf_path)
          p true (some url) hm
        simpa [hfs, hru, hcl] using h

theorem initFreshPath_inv (env : Env) (w : World) (sid : String) (id : Str)
    (now : Nat) (hm : smInv w.sm) : smInv (initFreshPath env w sid id now).2.sm := by
  unfold initFreshPath
  cases hpb : env.paperById id with
  | none => simpa [hpb] using hm
  | some info =>
    cases hfr : env.findRepo { info with pdf_path := env.downloadPaper info } with
    | none => simpa [hpb, hfr] using hm
    | some url =>
      rcases hcl : cloneRepository env w.fs url with ⟨res, fs2⟩
      cases res with
      | none => simpa [hpb, hfr, hcl] using hm
      | some p =>
        have h := stepIndex_inv env
          (World.mk w.sm w.cache w.concept_maps w.chroma fs2
            (w.cloneCalls + 1) w.indexCalls)
          sid id now
          (PaperInfo.mk info.title info.arxiv_id info.authors info.summary
            info.pdf_url (env.downloadPaper info))
          p false (some url) hm
        simpa [hpb, hfr, hcl] using h

theorem initPaper_inv (env : Env) (w : World) (sid : String) (id : Str) (now : Nat)
    (hm : smInv w.sm) : smInv (initPaper env w sid id now).2.sm := by
  unfold initPaper
  by_cases h0 : sid = "" ∨ trimWs id = []
  · simpa [h0] using hm
  · rcases hgs : w.sm.getSession sid now with ⟨os, sm1⟩
    have hm1 : smInv sm1 := by
      have h := smInv_getSession hm sid now
      rwa [hgs] at h
    cases os with
    | none => simpa [h0, hgs] using hm1
    | some s =>
      rcases hcg : w.cache.get (trimWs id) now with ⟨oc, c1⟩
      cases oc with
      | some cdata =>
        simpa [h0, hgs, hcg] using
          initFromCache_inv env { w with sm := sm1, cache := c1 } sid (trimWs id)
            now cdata hm1
      | none =>
        simpa [h0, hgs, hcg] using
          initFreshPath_inv env { w with sm := sm1, cache := c1 } sid (trimWs id)
            now hm1

theorem chatPaper_inv (w : World) (sid : String) (msg : Str) (now : Nat)
    (hm : smInv w.sm) : smInv (chatPaper w sid msg now).sm := by
  unfold chatPaper
  split
  · exact hm
  · exact smInv_getSession hm sid now

theorem resetSession_inv (w : World) (sid nsid : String) (now : Nat)
    (hm : smInv w.sm) : smInv (resetSession w sid nsid now).sm := by
  unfold resetSession
  split
  · exact hm
  · exact smInv_create (smInv_erase hm sid _ rfl) nsid now

/-- The server states reachable through the public operations, from the
boot state (empty process-local session registry, arbitrary persisted
stores reloaded from disk). -/
inductive Reachable : World → Prop where
  | start (cache : PaperCache) (cms : List (Str × ConceptMap))
      (chroma : List (Str × Nat)) (fs : List String) :
      Reachable { sm := { sessions := [], max_age_hours := 2 }, cache := cache,
                  concept_maps := cms, chroma := chroma, fs := fs,
                  cloneCalls := 0, indexCalls := 0 }
  | create (w : World) (sid : String) (now : Nat) :
      Reachable w → Reachable (createSessionOp w sid now)
  | search (env : Env) (w : World) (sid : String) (q : Str) (now : Nat) :
      Reachable w → Reachable (searchPaper env w sid q now).2
  | select (w : World) (sid : String) (sel : Selection) (now : Nat) :
      Reachable w → Reachable (selectPaper w sid sel now).2
  | initp (env : Env) (w : World) (sid : String) (id : Str) (now : Nat) :
      Reachable w → Reachable (initPaper env w sid id now).2
  | chat (w : World) (sid : String) (msg : Str) (now : Nat) :
      Reachable w → Reachable (chatPaper w sid msg now)
  | reset (w : World) (sid nsid : String) (now : Nat) :
      Reachable w → Reachable (resetSession w sid nsid now)

/-- C5: in every world reachable through the orchestrator operations
(create, search, select, initialize, chat, reset), every stored session
satisfies the invariant: its pending options are non-empty exactly when
it is awaiting selection, and its rover handle is present exactly when
it is initialized. -/
theorem c5_session_invariant (w : World) (hw : Reachable w) (sid : String)
    (s : Session) (hs : mapLookup w.sm.sessions sid = some s) :
    optionsTruthy s.paper_options = s.awaiting_paper_selection ∧
    s.rover_instance.isSome = s.is_initialized := by
  suffices h : smInv w.sm from h sid s hs
  clear hs
  induction hw with
  | start cache cms chroma fs =>
    intro sid' s' h'
    simp [mapLookup] at h'
  | create w' sid' now _ ih => exact smInv_create ih sid' now
  | search env w' sid' q now _ ih => exact searchPaper_inv env w' sid' q now ih
  | select w' sid' sel now _ ih => exact selectPaper_inv w' sid' sel now ih
  | initp env w' sid' id now _ ih => exact initPaper_inv env w' sid' id now ih
  | chat w' sid' msg now _ ih => exact chatPaper_inv w' sid' msg now ih
  | reset w' sid' nsid now _ ih => exact resetSession_inv w' sid' nsid now ih

/-- C5 witness: the invariant read off a concretely reached world — boot,
one created session, one free-text search that stored four options. -/
theorem c5_witness :
    optionsTruthy ((({ Session.fresh "s1" 0 with
        awaiting_paper_selection := true,
        paper_options := some (parseGemini fourGItems),
        original_query := some (trimWs "graph neural networks".data),
        search_mode := "gemini",
        last_accessed := 5 } : Session)).paper_options)
      = (({ Session.fresh "s1" 0 with
        awaiting_paper_selection := true,
        paper_options := some (parseGemini fourGItems),
        original_query := some (trimWs "graph neural networks".data),
        search_mode := "gemini",
        last_accessed := 5 } : Session)).awaiting_paper_selection ∧
    (({ Session.fresh "s1" 0 with
        awaiting_paper_selection := true,
        paper_options := some (parseGemini fourGItems),
        original_query := some (trimWs "graph neural networks".data),
        search_mode := "gemini",
        last_accessed := 5 } : Session)).rover_instance.isSome
      = (({ Session.fresh "s1" 0 with
        awaiting_paper_selection := true,
        paper_options := some (parseGemini fourGItems),
        original_query := some (trimWs "graph neural networks".data),
        search_mode := "gemini",
        last_accessed := 5 } : Session)).is_initialized :=
  c5_session_invariant
    (searchPaper gemEnv
      (createSessionOp
        { sm := { sessions := [], max_age_hours := 2 }, cache := ⟨[]⟩,
          concept_maps := [], chroma := [], fs := [],
          cloneCalls := 0, indexCalls := 0 }
        "s1" 0)
      "s1" "graph neural networks".data 5).2
    (Reachable.search gemEnv _ "s1" "graph neural networks".data 5
      (Reachable.create _ "s1" 0 (Reachable.start ⟨[]⟩ [] [] [])))
    "s1" _ (by decide)
